import Mathlib

/-!
# Scoring and ranking engine of the stock-contest backend

Shallow embedding of the settlement, user-stats and ranking logic of the
stock-contest backend (`src/models/Recommend.js`, the `User` model,
`src/models/Ranking.js`, `src/controllers/recommendController.js`,
`src/utils/stockUpdateJob.js`).

Conventions of the embedding:
* prices, percentage returns and rates are rationals (`ℚ`);
* timestamps are integers (`ℤ`), milliseconds since the Unix epoch with the
  host timezone taken as UTC;
* nullable columns are `Option`s;
* fallible operations return `Except String` carrying the thrown message;
* JavaScript truthiness on numbers (`0`, `null`, `undefined` are falsy) is
  modelled explicitly where the source relies on it.
-/

namespace StockContest

/-- Status enum of a prediction (`status` column of `recommends`,
`src/models/Recommend.js`). -/
inductive RecommendStatus where
  | active
  | success
  | failed
  | expired
  | cancelled
  deriving Repr, DecidableEq

/-- Status enum of a user (`status` column of `users`). -/
inductive UserStatus where
  | active
  | inactive
  | banned
  deriving Repr, DecidableEq

/-- One row of the `recommends` table, restricted to the columns the
settlement and ranking logic reads (`src/models/Recommend.js`). -/
structure Recommend where
  id : Nat
  user_id : Nat
  predict_change : ℚ
  entry_price : ℚ
  current_price : Option ℚ
  exit_price : Option ℚ
  current_return : Option ℚ
  actual_return : Option ℚ
  created_at : Int
  end_date : Int
  settled_at : Option Int
  status : RecommendStatus
  deriving Repr, DecidableEq

/-- One row of the `users` table, restricted to the columns
`User.prototype.updateStats` and the ranking logic touch
(the `User` model). -/
structure User where
  id : Nat
  level : Int
  total_score : Int
  current_score : Int
  total_recommends : Int
  success_recommends : Int
  failed_recommends : Int
  current_streak : Int
  max_streak : Int
  status : UserStatus
  deriving Repr, DecidableEq

/-- JavaScript truthiness filter for an optional numeric value: `null` and
`0` are falsy, every other number is truthy. -/
def truthyPrice : Option ℚ → Option ℚ
  | some p => if p = 0 then none else some p
  | none => none

/-- `const finalPrice = exitPrice || this.current_price` followed by
`if (!finalPrice) throw`: the override is used when truthy, otherwise the
stored current price when truthy, otherwise no price is available
(`src/models/Recommend.js` lines 237-241). -/
def resolveFinalPrice (exitPrice : Option ℚ) (currentPrice : Option ℚ) : Option ℚ :=
  match truthyPrice exitPrice with
  | some p => some p
  | none => truthyPrice currentPrice

/-- The success/failed decision of `Recommend.prototype.settle`
(`src/models/Recommend.js` lines 248-266): compare the predicted direction
(`up` iff `predict_change > 0`) with the actual direction (`up` iff
`actual_return > 0`); on a match, band the accuracy score
`100 - |actualReturn - predictChange|` at 80 and 50 (both upper bands map to
`success`, below 50 is `failed`); on a mismatch, `failed`. -/
def settleStatus (predictChange actualReturn : ℚ) : RecommendStatus :=
  let predictUp : Bool := decide (predictChange > 0)
  let actualUp : Bool := decide (actualReturn > 0)
  if predictUp = actualUp then
    let accuracyScore : ℚ := 100 - |actualReturn - predictChange|
    if accuracyScore ≥ 80 then .success
    else if accuracyScore ≥ 50 then .success
    else .failed
  else .failed

/-- `Recommend.prototype.settle` (`src/models/Recommend.js` lines 236-268):
resolve the final price (throwing when none is available), compute the
actual return, decide the status, and stamp the settlement fields. The
user/stock cascade is handled by the callers in this embedding. -/
def Recommend.settle (r : Recommend) (now : Int) (exitPrice : Option ℚ) :
    Except String Recommend :=
  match resolveFinalPrice exitPrice r.current_price with
  | none => .error "无法获取结算价格"
  | some finalPrice =>
    let actualReturn : ℚ := (finalPrice - r.entry_price) / r.entry_price * 100
    .ok { r with
          exit_price := some finalPrice
          actual_return := some actualReturn
          settled_at := some now
          status := settleStatus r.predict_change actualReturn }

/-- `User.prototype.updateStats` (the `User` model, lines 181-211): streak,
counts, score gain with streak bonuses, spendable-score floor, and the
level-up check. -/
def User.updateStats (u : User) (isSuccess : Bool) : User :=
  let u1 : User :=
    if isSuccess then
      let streak := u.current_streak + 1
      let scoreGain : Int :=
        10 + (if streak ≥ 3 then 20 else 0) + (if streak ≥ 5 then 50 else 0)
      { u with
        success_recommends := u.success_recommends + 1
        current_streak := streak
        max_streak := max u.max_streak streak
        total_score := u.total_score + scoreGain
        current_score := u.current_score + scoreGain }
    else
      { u with
        failed_recommends := u.failed_recommends + 1
        current_streak := 0
        current_score := max 0 (u.current_score - 5) }
  let u2 : User := { u1 with total_recommends := u1.total_recommends + 1 }
  let newLevel : Int := u2.total_score / 1000 + 1
  if newLevel > u2.level then { u2 with level := newLevel } else u2

/-- The banding of `settleStatus` collapses to a single test: `success`
exactly when the directions agree and `|actualReturn - predictChange| ≤ 50`. -/
theorem settleStatus_eq (pc ar : ℚ) :
    settleStatus pc ar =
      if (0 < pc ↔ 0 < ar) ∧ |ar - pc| ≤ 50 then .success else .failed := by
  unfold settleStatus
  simp only [gt_iff_lt, decide_eq_decide, ge_iff_le]
  split_ifs with h1 h2 h3 h4 h5 h6 h7 <;> try rfl
  · exact h3 ⟨h1, by linarith⟩
  · exact h5 ⟨h1, by linarith⟩
  · exact h4 (by linarith [h6.2])
  · exact h1 h7.1

/-- A direction-correct but wildly inaccurate prediction: entry 100,
predicted +1%, current price 160 (actual return +60%, accuracy score 41). -/
def recC1 : Recommend :=
  { id := 1, user_id := 1, predict_change := 1, entry_price := 100
    current_price := some 160, exit_price := none, current_return := none
    actual_return := none, created_at := 0, end_date := 10, settled_at := none
    status := .active }

/-- **C1, counterexample.** The claim says a direction-correct prediction is
never marked failed. Settling `recC1` (predicted direction up, actual return
+60 > 0, so the directions match) yields status `failed`, because the
accuracy score `100 - |60 - 1| = 41` falls below the 50 band of
`src/models/Recommend.js` lines 257-263. -/
theorem C1_counterexample :
    (recC1.settle 5 none).map Recommend.status = .ok RecommendStatus.failed ∧
    recC1.predict_change > 0 ∧
    (recC1.settle 5 none).map Recommend.actual_return = .ok (some 60) := by
  refine ⟨?_, by norm_num [recC1], ?_⟩ <;>
    norm_num [recC1, Recommend.settle, resolveFinalPrice, truthyPrice,
      settleStatus_eq, Except.map]

/-- **C1, amended.** For every settlement that succeeds, the resulting
status is `success` exactly when the directions match **and** the accuracy
score `100 - |actualReturn - predictedChange|` is at least 50 (equivalently
`|actualReturn - predictedChange| ≤ 50`); a direction-correct prediction
whose accuracy score falls below 50 is marked `failed`. -/
theorem C1_amended (r : Recommend) (now : Int) (e : Option ℚ) (r' : Recommend)
    (ar : ℚ) (h : r.settle now e = .ok r') (har : r'.actual_return = some ar) :
    r'.status =
      if (0 < r.predict_change ↔ 0 < ar) ∧ |ar - r.predict_change| ≤ 50 then
        RecommendStatus.success
      else RecommendStatus.failed := by
  unfold Recommend.settle at h
  cases hres : resolveFinalPrice e r.current_price with
  | none => rw [hres] at h; exact absurd h (by simp)
  | some p =>
    rw [hres] at h
    simp only [Except.ok.injEq] at h
    subst h
    simp only [Recommend.actual_return, Option.some.injEq] at har
    subst har
    exact settleStatus_eq r.predict_change _

/-- Fully accurate upward prediction used as a witness input. -/
def recC1w : Recommend :=
  { id := 2, user_id := 1, predict_change := 5, entry_price := 100
    current_price := some 110, exit_price := none, current_return := none
    actual_return := none, created_at := 0, end_date := 10, settled_at := none
    status := .active }

/-- The record `recC1w.settle 7 none` produces: actual return +10,
accuracy score 95, status `success`. -/
def recC1wSettled : Recommend :=
  { recC1w with
    exit_price := some 110
    actual_return := some 10
    settled_at := some 7
    status := .success }

/-- Witness for `C1_amended` at `recC1w`. -/
theorem C1_amended_witness :
    recC1wSettled.status =
      if (0 < recC1w.predict_change ↔ 0 < (10 : ℚ)) ∧
          |(10 : ℚ) - recC1w.predict_change| ≤ 50 then
        RecommendStatus.success
      else RecommendStatus.failed :=
  C1_amended recC1w 7 none recC1wSettled 10
    (by norm_num [recC1w, recC1wSettled, Recommend.settle, resolveFinalPrice,
      truthyPrice, settleStatus_eq])
    rfl

/-- **C4, confirmed.** `User.prototype.updateStats`: on success the success
count, streak and total count each grow by one, the max streak is bumped to
the new streak, and both scores gain `10 + (20 if new streak ≥ 3) +
(50 if new streak ≥ 5)`; on failure the failed count and total count grow by
one, the streak resets, the spendable score drops by 5 floored at 0, and the
total score is unchanged; in both cases the level becomes
`⌊totalScore / 1000⌋ + 1` when that exceeds the current level and never
decreases. -/
theorem C4_updateStats_correct (u : User) :
    ((u.updateStats true).success_recommends = u.success_recommends + 1 ∧
     (u.updateStats true).current_streak = u.current_streak + 1 ∧
     (u.updateStats true).total_recommends = u.total_recommends + 1 ∧
     (u.updateStats true).max_streak = max u.max_streak (u.current_streak + 1) ∧
     (u.updateStats true).failed_recommends = u.failed_recommends ∧
     (u.updateStats true).total_score = u.total_score +
       (10 + (if u.current_streak + 1 ≥ 3 then (20 : Int) else 0) +
        (if u.current_streak + 1 ≥ 5 then (50 : Int) else 0)) ∧
     (u.updateStats true).current_score = u.current_score +
       (10 + (if u.current_streak + 1 ≥ 3 then (20 : Int) else 0) +
        (if u.current_streak + 1 ≥ 5 then (50 : Int) else 0))) ∧
    ((u.updateStats false).failed_recommends = u.failed_recommends + 1 ∧
     (u.updateStats false).total_recommends = u.total_recommends + 1 ∧
     (u.updateStats false).current_streak = 0 ∧
     (u.updateStats false).current_score = max 0 (u.current_score - 5) ∧
     (u.updateStats false).total_score = u.total_score ∧
     (u.updateStats false).success_recommends = u.success_recommends) ∧
    (∀ b : Bool,
      (u.updateStats b).level =
        (if (u.updateStats b).total_score / 1000 + 1 > u.level then
          (u.updateStats b).total_score / 1000 + 1
        else u.level) ∧
      u.level ≤ (u.updateStats b).level) := by
  refine ⟨⟨?_, ?_, ?_, ?_, ?_, ?_, ?_⟩, ⟨?_, ?_, ?_, ?_, ?_, ?_⟩, ?_⟩
  · simp [User.updateStats, apply_ite User.success_recommends]
  · simp [User.updateStats, apply_ite User.current_streak]
  · simp [User.updateStats, apply_ite User.total_recommends]
  · simp [User.updateStats, apply_ite User.max_streak]
  · simp [User.updateStats, apply_ite User.failed_recommends]
  · simp [User.updateStats, apply_ite User.total_score]
  · simp [User.updateStats, apply_ite User.current_score]
  · simp [User.updateStats, apply_ite User.failed_recommends]
  · simp [User.updateStats, apply_ite User.total_recommends]
  · simp [User.updateStats, apply_ite User.current_streak]
  · simp [User.updateStats, apply_ite User.current_score]
  · simp [User.updateStats, apply_ite User.total_score]
  · simp [User.updateStats, apply_ite User.success_recommends]
  · intro b
    cases b <;>
      simp only [User.updateStats, if_true, Bool.false_eq_true, if_false,
        apply_ite User.level, apply_ite User.total_score, ite_self] <;>
      exact ⟨trivial, by split <;> omega⟩

/-- One row of the `rankings` table, restricted to the columns
`Ranking.calculateRankings` writes and the read paths consume
(`src/models/Ranking.js`). -/
structure Ranking where
  user_id : Nat
  rank : Nat
  previous_rank : Option Nat
  score : Int
  period_score : Int
  total_recommends : Nat
  success_recommends : Nat
  win_rate : ℚ
  avg_return : ℚ
  max_return : ℚ
  current_streak : Nat
  max_streak : Nat
  ranking_type : String
  period : String
  period_start : Option Int
  period_end : Option Int
  is_active : Bool
  badge : Option String
  deriving Repr, DecidableEq

/-- Gregorian leap-year test, as implemented by the JS `Date` calendar. -/
def isLeap (y : Nat) : Bool := (y % 4 = 0 && y % 100 ≠ 0) || y % 400 = 0

/-- Length of month `m` (1-based) of year `y` in the Gregorian calendar. -/
def daysInMonth (y m : Nat) : Nat :=
  if m = 2 then (if isLeap y then 29 else 28)
  else if m = 4 ∨ m = 6 ∨ m = 9 ∨ m = 11 then 30
  else 31

/-- Days from the epoch 1970-01-01 to Jan 1 of year `y` (for `y ≥ 1970`),
the day count underlying `new Date(y, 0, 1).getTime()`. -/
def daysFromEpochToYear (y : Nat) : Nat :=
  (List.range (y - 1970)).foldl
    (fun acc i => acc + (if isLeap (1970 + i) then 366 else 365)) 0

/-- `new Date(year, monthIndex, day, h, min, s, ms).getTime()` for
`year ≥ 1970` and a 0-based month index, with the host timezone taken as
UTC. `day = 0` denotes the last day of the previous month, exactly as in
JS (`new Date(y, m, 0)` used by `Ranking.getPeriodRange`). -/
def mkTime (year monthIndex day h min s ms : Nat) : Int :=
  let y := year + monthIndex / 12
  let m := monthIndex % 12
  let days : Int := (daysFromEpochToYear y : Int) +
    ((List.range m).foldl (fun acc i => acc + daysInMonth y (i + 1)) 0 : Int) +
    (day : Int) - 1
  days * 86400000 + h * 3600000 + min * 60000 + s * 1000 + ms * 1

/-- The calendar fields of the JS `Date` value for "now" that
`Ranking.getCurrentPeriod` reads: full year, 1-based month
(`getMonth() + 1`), milliseconds since Jan 1 of the year, and the weekday
of Jan 1 (`startOfYear.getDay()`). -/
structure DateNow where
  year : Nat
  month : Nat
  msSinceYearStart : Int
  jan1Weekday : Nat
  deriving Repr, DecidableEq

/-- Two-digit zero padding (`String.padStart(2, "0")`). -/
def pad2 (n : Nat) : String :=
  if n < 10 then "0" ++ toString n else toString n

/-- `Ranking.getCurrentPeriod` (`src/models/Ranking.js` lines 241-259):
weekly periods are `"{year}-W{week}"` with
`week = ceil((daysSinceYearStart + jan1Weekday + 1) / 7)` (the simplified
non-ISO rule), monthly periods are `"{year}-{month}"`, and the total
ranking's period is the literal `"total"`. -/
def getCurrentPeriod (type : String) (now : DateNow) : String :=
  if type = "weekly" then
    let days : Int := now.msSinceYearStart / 86400000
    let week : Int := (days + now.jan1Weekday + 1 + 6) / 7
    toString now.year ++ "-W" ++ pad2 week.toNat
  else if type = "monthly" then
    toString now.year ++ "-" ++ pad2 now.month
  else "total"

/-- One step of the JS `String.prototype.split` model over character
lists: `fuel` bounds the scan (initialised to the length of the scanned
text, enough since every step consumes at least one character), `acc`
collects the piece currently being read, reversed. -/
def jsSplitAux (sep : List Char) : Nat → List Char → List Char → List (List Char)
  | _, [], acc => [acc.reverse]
  | 0, _ :: _, acc => [acc.reverse]
  | fuel + 1, c :: rest, acc =>
    if sep.isPrefixOf (c :: rest) then
      acc.reverse :: jsSplitAux sep fuel (List.drop (sep.length - 1) rest) []
    else jsSplitAux sep fuel rest (c :: acc)

/-- Model of the JS `String.prototype.split(sep)` for the non-empty literal
separators (`"-"`, `"-W"`) the period helpers use. -/
def jsSplit (s sep : String) : List String :=
  (jsSplitAux sep.data s.data.length s.data []).map String.mk

/-- The leading decimal-digit run of a character list (the digit-consuming
core of JS `parseInt`). -/
def leadingDigits : List Char → List Char
  | [] => []
  | c :: rest => if c.isDigit then c :: leadingDigits rest else []

/-- Model of JS `parseInt` restricted to the nonnegative decimal strings
the period formats produce: the leading digit run read as a number, `none`
(JS `NaN`) when there is none. -/
def parseIntNat (s : String) : Option Nat :=
  match leadingDigits s.data with
  | [] => none
  | ds => some (ds.foldl (fun acc c => acc * 10 + (c.toNat - ('0' : Char).toNat)) 0)

/-- `Ranking.getPeriodRange` (`src/models/Ranking.js` lines 262-301):
`"total"` has no bounds; a weekly period covers 7 days minus one second
from Jan 1 plus `(week-1)` weeks; a monthly period runs from the first to
the last millisecond of the month. Malformed periods (which the engine
never emits) are parsed with missing pieces read as 0. -/
def getPeriodRange (type period : String) : Option (Int × Int) :=
  if type = "total" then none
  else if type = "weekly" then
    let parts := jsSplit period "-W"
    let year := (parseIntNat (parts.getD 0 "")).getD 0
    let week := (parseIntNat (parts.getD 1 "")).getD 0
    let startOfYear := mkTime year 0 1 0 0 0 0
    let startOfWeek := startOfYear + ((week : Int) - 1) * (7 * 24 * 60 * 60 * 1000)
    let endOfWeek := startOfWeek +
      6 * 24 * 60 * 60 * 1000 + 23 * 60 * 60 * 1000 + 59 * 60 * 1000 + 59 * 1000
    some (startOfWeek, endOfWeek)
  else if type = "monthly" then
    let parts := jsSplit period "-"
    let year := (parseIntNat (parts.getD 0 "")).getD 0
    let month := (parseIntNat (parts.getD 1 "")).getD 0
    some (mkTime year (month - 1) 1 0 0 0 0, mkTime year month 0 23 59 59 999)
  else none

/-- `Ranking.getPreviousPeriod` (`src/models/Ranking.js` lines 480-506):
decrement the week (week 1 wraps to the previous year's week 52) or the
month (January wraps to the previous December); `"total"` maps to itself. -/
def getPreviousPeriod (type currentPeriod : String) : String :=
  if type = "total" then "total"
  else if type = "weekly" then
    let parts := jsSplit currentPeriod "-W"
    let year := parts.getD 0 ""
    let weekNum := (parseIntNat (parts.getD 1 "")).getD 0
    if weekNum > 1 then year ++ "-W" ++ pad2 (weekNum - 1)
    else toString (((parseIntNat year).getD 0 : Int) - 1) ++ "-W52"
  else if type = "monthly" then
    let parts := jsSplit currentPeriod "-"
    let year := parts.getD 0 ""
    let monthNum := (parseIntNat (parts.getD 1 "")).getD 0
    if monthNum > 1 then year ++ "-" ++ pad2 (monthNum - 1)
    else toString (((parseIntNat year).getD 0 : Int) - 1) ++ "-12"
  else currentPeriod

/-- The column names of the `recommends` table: the 22 attributes of the
Sequelize `Recommend` model (`src/models/Recommend.js` lines 5-164) plus
the `created_at`/`updated_at` pair added by the global define options
`timestamps: true, underscored: true` of the database config. The schema
is created from this model by `sequelize.sync({ force: false, alter:
false })` (`src/app.js` line 87); the repository ships no migrations, so
these are all the columns the table can have. -/
def recommendsColumns : List String :=
  ["id", "user_id", "stock_code", "predict_change", "reason", "confidence",
   "hold_period", "entry_price", "current_price", "exit_price",
   "current_return", "actual_return", "start_date", "end_date",
   "settled_at", "status", "follow_count", "like_count", "view_count",
   "tags", "is_featured", "admin_comment", "created_at", "updated_at"]

/-- The column names referenced in the select list of the per-user stats
query of `Ranking.calculateRankings` (`src/models/Ranking.js` lines
330-362): `id` under `COUNT`, `status` and `actual_return` inside the
aggregate `CASE` literals, and `current_streak` inside the period-score
`SUM(CASE ...)` at line 354. (The `WHERE` clause adds `user_id` and, for
bounded periods, `created_at`; both of those exist.) -/
def statsQueryColumns : List String :=
  ["id", "status", "actual_return", "current_streak"]

/-- The referenced columns that the `recommends` schema does not have.
MySQL resolves every column reference of a statement against the schema
before looking at any row, so a nonempty result means the statement fails
with `ER_BAD_FIELD_ERROR` no matter what data is stored. -/
def missingStatsColumns : List String :=
  statsQueryColumns.filter (fun c => !recommendsColumns.contains c)

/-- `Ranking.calculateRankings` (`src/models/Ranking.js` lines 304-477)
against an explicit snapshot store, returning the pushed rows and the new
store. After resolving the period (`period || getCurrentPeriod(type)`)
and loading the users with status `active`, the source loops over them,
and the first await of each iteration is the per-user stats query. That
query's select list references `current_streak`, a column `recommends`
does not have (`missingStatsColumns` is nonempty), so MySQL rejects the
statement at name resolution and the call throws at its first active
user — before the streak scan, the sort, the rank/badge assignment and
the snapshot destroy/insert ever run, leaving the stored snapshot
untouched. Only a call that finds no active user completes: the loop
body never runs, the old `(type, currentPeriod)` snapshot is destroyed,
`bulkCreate` is skipped for the empty row list, and `[]` is returned.
The aggregation arithmetic behind a successfully resolving stats query is
unreachable on this schema and therefore not modelled: that branch
reports itself as an error too, and `missingStatsColumns_spec` shows it
is never taken. -/
def calculateRankings (store : List Ranking) (users : List User)
    (type : String) (periodArg : Option String) (now : DateNow) :
    Except String (List Ranking × List Ranking) :=
  let currentPeriod := periodArg.getD (getCurrentPeriod type now)
  let activeUsers := users.filter (fun u => decide (u.status = UserStatus.active))
  match activeUsers with
  | [] =>
    .ok ([], store.filter (fun r =>
      !(decide (r.ranking_type = type) && decide (r.period = currentPeriod))))
  | _ :: _ =>
    match missingStatsColumns with
    | c :: _ => .error ("Unknown column \x27" ++ c ++ "\x27 in \x27field list\x27")
    | [] => .error "unreachable on this schema: aggregation stage not modelled"

/-- `Ranking.getRankingList` (`src/models/Ranking.js` lines 181-213):
filter the store to the requested type and period (defaulting to the
current period, or the literal `"total"`), keep only `is_active` rows whose
user is currently `active` (the required join), order by rank ascending,
and page with limit/offset. Returns the page and the total matching
count. -/
def getRankingList (store : List Ranking) (users : List User) (type : String)
    (periodArg : Option String) (lim offset : Nat) (now : DateNow) :
    List Ranking × Nat :=
  let period :=
    match periodArg with
    | some p => p
    | none => if type = "total" then "total" else getCurrentPeriod type now
  let matching := store.filter (fun row =>
    decide (row.ranking_type = type) && decide (row.period = period) &&
      row.is_active &&
      (match users.find? (fun u => decide (u.id = row.user_id)) with
        | some u => decide (u.status = UserStatus.active)
        | none => false))
  let ordered := matching.mergeSort (fun a b => decide (a.rank ≤ b.rank))
  ((ordered.drop offset).take lim, matching.length)

/-- `Ranking.getUserRanking` (lines 215-238): the first stored `is_active`
row of the user for the type and resolved period; the joined user carries
no status condition here. -/
def getUserRanking (store : List Ranking) (uid : Nat) (type : String)
    (periodArg : Option String) (now : DateNow) : Option Ranking :=
  let period :=
    match periodArg with
    | some p => p
    | none => if type = "total" then "total" else getCurrentPeriod type now
  (store.filter (fun row =>
    decide (row.user_id = uid) && decide (row.ranking_type = type) &&
      decide (row.period = period) && row.is_active)).head?

/-- Error taxonomy of the engine-level settle boundary
(`src/controllers/recommendController.js` lines 489-516). -/
inductive SettleError where
  | notFound
  | notActive
  | missingPrice
  deriving Repr, DecidableEq

/-- The persistent state the settle boundary touches: the `recommends` and
`users` tables. -/
structure EngineState where
  recommends : List Recommend
  users : List User
  deriving Repr, DecidableEq

/-- `Recommend.findByPk` over the embedded table. -/
def findRecommend (rs : List Recommend) (id : Nat) : Option Recommend :=
  rs.find? (fun r => decide (r.id = id))

/-- Persist an updated prediction row (`this.save()`). -/
def saveRecommend (rs : List Recommend) (r2 : Recommend) : List Recommend :=
  rs.map (fun r => if r.id = r2.id then r2 else r)

/-- Persist an updated user row (`user.save()`). -/
def saveUser (us : List User) (u2 : User) : List User :=
  us.map (fun u => if u.id = u2.id then u2 else u)

/-- `settleRecommend` (`src/controllers/recommendController.js` lines
489-516) composed with the user-stats cascade of
`Recommend.prototype.settle` (lines 270-275): look the prediction up (404
when absent), reject non-active rows (400), settle (throwing when no price
resolves), persist, and update the author's stats when the author row
exists. Returns the resulting state and the error, `none` on success. -/
def engineSettle (st : EngineState) (id : Nat) (exitPrice : Option ℚ)
    (now : Int) : EngineState × Option SettleError :=
  match findRecommend st.recommends id with
  | none => (st, some .notFound)
  | some r =>
    if r.status ≠ RecommendStatus.active then (st, some .notActive)
    else
      match r.settle now exitPrice with
      | .error _ => (st, some .missingPrice)
      | .ok r2 =>
        let users2 :=
          match st.users.find? (fun u => decide (u.id = r.user_id)) with
          | some u => saveUser st.users (u.updateStats (decide (r2.status = .success)))
          | none => st.users
        ({ recommends := saveRecommend st.recommends r2, users := users2 }, none)

/-- The operations that can touch one prediction after creation, each with
the guard its caller applies in the source. -/
inductive Op where
  | refresh (price : ℚ)
  | settleOp (now : Int) (exitPrice : Option ℚ)
  | checkExpiredOp (now : Int)
  | cancel
  deriving Repr, DecidableEq

/-- `Recommend.prototype.updateCurrentReturn` / the per-row update of
`stockUpdateJob.updateRecommendReturns` (`src/models/Recommend.js` lines
228-233, `src/utils/stockUpdateJob.js` lines 181-204): set the current
price and recompute the current return. -/
def Recommend.updateCurrentReturn (r : Recommend) (price : ℚ) : Recommend :=
  { r with
    current_price := some price
    current_return := some ((price - r.entry_price) / r.entry_price * 100) }

/-- `Recommend.prototype.checkExpired` (`src/models/Recommend.js` lines
286-294): when active and past the end date, settle with no override; a
throw propagates leaving the row unchanged; if settling somehow left the
row active it would be forced to `expired`. -/
def Recommend.checkExpired (r : Recommend) (now : Int) : Recommend :=
  if r.status = .active ∧ now > r.end_date then
    match r.settle now none with
    | .error _ => r
    | .ok r2 => if r2.status = .active then { r2 with status := .expired } else r2
  else r

/-- One post-creation operation applied to a prediction row, with the
caller-side guards: price refreshes select only `active` rows
(`stockUpdateJob.js` line 184), the settle and cancel endpoints reject
non-active rows (`recommendController.js` lines 347-352 and 500-504), and
`checkExpired` guards itself. An erroring settle leaves the row as it
was. -/
def applyOp (r : Recommend) (op : Op) : Recommend :=
  match op with
  | .refresh price => if r.status = .active then r.updateCurrentReturn price else r
  | .settleOp now e =>
    if r.status = .active then
      match r.settle now e with
      | .error _ => r
      | .ok r2 => r2
    else r
  | .checkExpiredOp now => r.checkExpired now
  | .cancel => if r.status = .active then { r with status := .cancelled } else r

/-- A freshly created prediction (`createRecommend`,
`src/controllers/recommendController.js` lines 92-106): active, entry and
current price from the quoted price, zero current return, no settlement
fields. -/
def createRecommend (id uid : Nat) (predictChange price : ℚ)
    (createdAt endDate : Int) : Recommend :=
  { id := id, user_id := uid, predict_change := predictChange
    entry_price := price, current_price := some price, exit_price := none
    current_return := some 0, actual_return := none, created_at := createdAt
    end_date := endDate, settled_at := none, status := .active }

/-- A successful settle stamps the three settlement fields and lands on
`success` or `failed`. -/
theorem settle_ok_fields (r : Recommend) (now : Int) (e : Option ℚ)
    (r2 : Recommend) (h : r.settle now e = .ok r2) :
    r2.settled_at = some now ∧ r2.actual_return.isSome ∧ r2.exit_price.isSome ∧
      (r2.status = .success ∨ r2.status = .failed) := by
  unfold Recommend.settle at h
  cases hres : resolveFinalPrice e r.current_price with
  | none => rw [hres] at h; exact absurd h (by simp)
  | some p =>
    rw [hres] at h
    simp only [Except.ok.injEq] at h
    subst h
    refine ⟨rfl, rfl, rfl, ?_⟩
    simp only [settleStatus_eq]
    split <;> simp

/-- Once a prediction has left `active`, every modelled operation is a
no-op on it: terminal rows are frozen. -/
theorem applyOp_frozen (r : Recommend) (op : Op) (h : r.status ≠ .active) :
    applyOp r op = r := by
  cases op <;> simp [applyOp, Recommend.checkExpired, h]

/-- An active prediction with no stored current price. -/
def recC6 : Recommend :=
  { id := 1, user_id := 1, predict_change := 2, entry_price := 100
    current_price := none, exit_price := none, current_return := none
    actual_return := none, created_at := 0, end_date := 10, settled_at := none
    status := .active }

/-- The one-prediction state the C6 counterexample settles against. -/
def stC6 : EngineState := { recommends := [recC6], users := [] }

/-- **C6, counterexample.** The claim says settle errors only when the
prediction is missing, not active, or *neither* an exit-price override nor
a stored current price is available. Settling `recC6` (present, active)
with the explicit override `0` still errors with `missingPrice`: the
`exitPrice || this.current_price` fallback treats the 0 override as absent
and the stored price is null. -/
theorem C6_counterexample :
    (engineSettle stC6 1 (some 0) 5).2 = some SettleError.missingPrice ∧
    findRecommend stC6.recommends 1 = some recC6 ∧
    recC6.status = RecommendStatus.active ∧
    (some (0 : ℚ)).isSome = true := by
  refine ⟨?_, ?_, rfl, rfl⟩ <;>
    simp [engineSettle, stC6, recC6, findRecommend, Recommend.settle,
      resolveFinalPrice, truthyPrice]

/-- **C6, amended.** The engine-level settle errors precisely when the
prediction is absent, its status is not `active`, or no *truthy* final
price resolves — where the `||` fallback of
`src/models/Recommend.js` line 237 treats a 0 override and a 0 or missing
stored price as unavailable; and on every error path the returned state is
the input state unchanged. -/
theorem C6_amended (st : EngineState) (id : Nat) (e : Option ℚ) (now : Int) :
    ((engineSettle st id e now).2.isSome ↔
      findRecommend st.recommends id = none ∨
      (∃ r, findRecommend st.recommends id = some r ∧
        (r.status ≠ RecommendStatus.active ∨
          resolveFinalPrice e r.current_price = none))) ∧
    ((engineSettle st id e now).2.isSome → (engineSettle st id e now).1 = st) := by
  unfold engineSettle
  cases hfind : findRecommend st.recommends id with
  | none => simp
  | some r =>
    dsimp only
    by_cases hst : r.status = RecommendStatus.active
    · rw [if_neg (by simp [hst])]
      unfold Recommend.settle
      cases hres : resolveFinalPrice e r.current_price with
      | none => simp [hst, hres]
      | some p => simp [hst, hres]
    · rw [if_pos hst]
      simp [hst]

/-- The prediction the C7 scenarios start from. -/
def recC7 : Recommend := createRecommend 1 1 5 100 0 10

/-- **C7, counterexample.** The claim says status is `active` iff exit
price, actual return and settled timestamp are all null. Cancelling a
fresh prediction (the `deleteRecommend` soft delete) leaves all three null
while the status is `cancelled`. -/
theorem C7_counterexample :
    (applyOp recC7 Op.cancel).status = RecommendStatus.cancelled ∧
    (applyOp recC7 Op.cancel).exit_price = none ∧
    (applyOp recC7 Op.cancel).actual_return = none ∧
    (applyOp recC7 Op.cancel).settled_at = none ∧
    (applyOp recC7 Op.cancel).status ≠ RecommendStatus.active := by
  simp [applyOp, recC7, createRecommend]

/-- One step preserves the settlement-field invariant. -/
theorem applyOp_inv (r : Recommend) (op : Op)
    (h1 : r.status = .active →
      r.exit_price = none ∧ r.actual_return = none ∧ r.settled_at = none)
    (h2 : r.exit_price = none ∧ r.actual_return = none ∧ r.settled_at = none →
      r.status = .active ∨ r.status = .cancelled) :
    ((applyOp r op).status = .active →
      (applyOp r op).exit_price = none ∧ (applyOp r op).actual_return = none ∧
        (applyOp r op).settled_at = none) ∧
    ((applyOp r op).exit_price = none ∧ (applyOp r op).actual_return = none ∧
        (applyOp r op).settled_at = none →
      (applyOp r op).status = .active ∨ (applyOp r op).status = .cancelled) := by
  cases op with
  | refresh price =>
    by_cases hst : r.status = .active
    · simp only [applyOp, if_pos hst, Recommend.updateCurrentReturn]
      exact ⟨h1, h2⟩
    · rw [applyOp_frozen r _ hst]; exact ⟨h1, h2⟩
  | settleOp now e =>
    by_cases hst : r.status = .active
    · simp only [applyOp, if_pos hst]
      cases hset : r.settle now e with
      | error s => exact ⟨h1, h2⟩
      | ok r2 =>
        dsimp only
        obtain ⟨hs, ha, he, hstat⟩ := settle_ok_fields r now e r2 hset
        constructor
        · intro hact; rcases hstat with h | h <;> rw [h] at hact <;> exact absurd hact (by simp)
        · intro hnull; rw [hnull.2.2] at hs; exact absurd hs (by simp)
    · rw [applyOp_frozen r _ hst]; exact ⟨h1, h2⟩
  | checkExpiredOp now =>
    simp only [applyOp, Recommend.checkExpired]
    by_cases hg : r.status = .active ∧ now > r.end_date
    · rw [if_pos hg]
      cases hset : r.settle now none with
      | error s => exact ⟨h1, h2⟩
      | ok r2 =>
        dsimp only
        obtain ⟨hs, ha, he, hstat⟩ := settle_ok_fields r now none r2 hset
        by_cases hact2 : r2.status = .active
        · rw [if_pos hact2]
          constructor
          · intro hact; exact absurd hact (by simp)
          · intro hnull; rw [hnull.2.2] at hs; exact absurd hs (by simp)
        · rw [if_neg hact2]
          constructor
          · intro hact; exact absurd hact hact2
          · intro hnull; rw [hnull.2.2] at hs; exact absurd hs (by simp)
    · rw [if_neg hg]; exact ⟨h1, h2⟩
  | cancel =>
    by_cases hst : r.status = .active
    · simp only [applyOp, if_pos hst]
      constructor
      · intro hact; exact absurd hact (by simp)
      · intro _; right; trivial
    · rw [applyOp_frozen r _ hst]; exact ⟨h1, h2⟩

/-- The invariant holds along any fold of operations. -/
theorem foldl_applyOp_inv (ops : List Op) (r0 : Recommend)
    (h1 : r0.status = .active →
      r0.exit_price = none ∧ r0.actual_return = none ∧ r0.settled_at = none)
    (h2 : r0.exit_price = none ∧ r0.actual_return = none ∧ r0.settled_at = none →
      r0.status = .active ∨ r0.status = .cancelled) :
    ((ops.foldl applyOp r0).status = .active →
      (ops.foldl applyOp r0).exit_price = none ∧
        (ops.foldl applyOp r0).actual_return = none ∧
        (ops.foldl applyOp r0).settled_at = none) ∧
    ((ops.foldl applyOp r0).exit_price = none ∧
        (ops.foldl applyOp r0).actual_return = none ∧
        (ops.foldl applyOp r0).settled_at = none →
      (ops.foldl applyOp r0).status = .active ∨
        (ops.foldl applyOp r0).status = .cancelled) := by
  induction ops generalizing r0 with
  | nil => exact ⟨h1, h2⟩
  | cons op rest ih =>
    simp only [List.foldl_cons]
    obtain ⟨g1, g2⟩ := applyOp_inv r0 op h1 h2
    exact ih (applyOp r0 op) g1 g2

/-- **C7, amended.** For every prediction reachable from creation by any
sequence of refreshes, settlements, expiry checks and cancellations: if the
status is `active` then exit price, actual return and settled timestamp are
all null; if all three are null the status is `active` *or* `cancelled`
(cancellation leaves them null, so the claimed "iff" holds only in the
forward direction); and once the status has left `active`, every further
operation leaves the row — those three fields included — completely
unchanged. -/
theorem C7_amended (id uid : Nat) (pc price : ℚ) (createdAt endDate : Int)
    (ops : List Op) (r : Recommend)
    (h : r = ops.foldl applyOp (createRecommend id uid pc price createdAt endDate)) :
    (r.status = .active →
      r.exit_price = none ∧ r.actual_return = none ∧ r.settled_at = none) ∧
    (r.exit_price = none ∧ r.actual_return = none ∧ r.settled_at = none →
      r.status = .active ∨ r.status = .cancelled) ∧
    (∀ op, r.status ≠ .active → applyOp r op = r) := by
  subst h
  obtain ⟨g1, g2⟩ := foldl_applyOp_inv ops (createRecommend id uid pc price createdAt endDate)
    (by intro _; exact ⟨rfl, rfl, rfl⟩) (by intro _; left; rfl)
  exact ⟨g1, g2, fun op => applyOp_frozen _ op⟩

/-- The one-step-cancelled prediction used to witness `C7_amended`. -/
def recC7c : Recommend :=
  List.foldl applyOp (createRecommend 1 1 5 100 0 10) [Op.cancel]

/-- Witness for `C7_amended` at a concrete one-operation history. -/
theorem C7_amended_witness :
    (recC7c.status = .active →
      recC7c.exit_price = none ∧ recC7c.actual_return = none ∧
        recC7c.settled_at = none) ∧
    (recC7c.exit_price = none ∧ recC7c.actual_return = none ∧
        recC7c.settled_at = none →
      recC7c.status = .active ∨ recC7c.status = .cancelled) ∧
    (∀ op, recC7c.status ≠ .active → applyOp recC7c op = recC7c) :=
  C7_amended 1 1 5 100 0 10 [Op.cancel] recC7c rfl

/-- A fixed "now" (any value works: the tests below pass periods
explicitly). -/
def dummyNow : DateNow :=
  { year := 2024, month := 1, msSinceYearStart := 0, jan1Weekday := 1 }

/-- An active user with no history. -/
def userC2 : User :=
  { id := 1, level := 1, total_score := 0, current_score := 0
    total_recommends := 0, success_recommends := 0, failed_recommends := 0
    current_streak := 0, max_streak := 0, status := .active }

/-- A second active user with no history, subject of the C3 run. -/
def userC3 : User :=
  { id := 1, level := 1, total_score := 0, current_score := 0
    total_recommends := 0, success_recommends := 0, failed_recommends := 0
    current_streak := 0, max_streak := 0, status := .active }

/-- An active user with a live total score of 100. -/
def userC5a : User :=
  { id := 1, level := 1, total_score := 100, current_score := 100
    total_recommends := 0, success_recommends := 0, failed_recommends := 0
    current_streak := 0, max_streak := 0, status := .active }

/-- A second active user with no live total score. -/
def userC5b : User :=
  { id := 2, level := 1, total_score := 0, current_score := 0
    total_recommends := 0, success_recommends := 0, failed_recommends := 0
    current_streak := 0, max_streak := 0, status := .active }

/-- Ten active users with strictly descending live total scores. -/
def usersC9 : List User :=
  (List.range 10).map (fun i =>
    { id := i + 1, level := 1, total_score := (100 : Int) - 10 * i
      current_score := 0, total_recommends := 0, success_recommends := 0
      failed_recommends := 0, current_streak := 0, max_streak := 0
      status := .active })

/-- The single active user of the C8 run. -/
def userC8 : User :=
  { id := 1, level := 1, total_score := 0, current_score := 0
    total_recommends := 0, success_recommends := 0, failed_recommends := 0
    current_streak := 0, max_streak := 0, status := .active }

/-- The one select-list column of the stats query that the `recommends`
schema cannot resolve. -/
theorem missingStatsColumns_spec :
    missingStatsColumns = ["current_streak"] := by decide

/-- **C2.** The period score the claim describes is never computed: a
`calculateRankings` run that finds even one active user dies in that
user's stats query, because the period-score `CASE`
(`src/models/Ranking.js` line 354) reads `current_streak`, which is not a
column of `recommends`. The monthly run below throws MySQL's
unknown-column error before any score is summed. -/
theorem C2_stats_query_throws :
    calculateRankings [] [userC2] "monthly" (some "2024-01") dummyNow =
      .error "Unknown column \x27current_streak\x27 in \x27field list\x27" ∧
    recommendsColumns.contains "current_streak" = false :=
  ⟨rfl, by decide⟩

/-- **C3.** The streak recomputation never executes: the scan over the
user's recent settled predictions (`src/models/Ranking.js` lines 381-404)
sits after the stats query of the same loop iteration, and that query
fails at MySQL name resolution on `current_streak`, so a run with an
active user throws before reading a single settled prediction. -/
theorem C3_stats_query_throws :
    calculateRankings [] [userC3] "monthly" (some "2024-01") dummyNow =
      .error "Unknown column \x27current_streak\x27 in \x27field list\x27" ∧
    missingStatsColumns = ["current_streak"] :=
  ⟨rfl, by decide⟩

/-- **C5.** Ranks are never assigned: with any active user present the
run throws in the stats query before the sort and the rank loop
(`src/models/Ranking.js` lines 425-448) are reached, and the only runs
that complete — those finding no active user — produce no rows at all,
so a dense 1..N rank assignment never happens. -/
theorem C5_stats_query_throws :
    calculateRankings [] [userC5a, userC5b] "total" (some "total") dummyNow =
      .error "Unknown column \x27current_streak\x27 in \x27field list\x27" ∧
    calculateRankings [] [] "total" (some "total") dummyNow = .ok ([], []) :=
  ⟨rfl, rfl⟩

/-- **C8.** Back-to-back recomputation cannot be observed: every run that
finds an active user throws in that user's stats query, so no snapshot
rows — with or without a `previousRank` — are ever written. The only
completing runs find no active user; such a run writes no rows and only
clears the `(type, period)` slice of the store, and the second conjunct
shows for every store that repeating it reproduces the first run's
output exactly. -/
theorem C8_stats_query_throws :
    (calculateRankings [] [userC8] "total" (some "total") dummyNow =
      .error "Unknown column \x27current_streak\x27 in \x27field list\x27") ∧
    (∀ (store : List Ranking) (type p : String) (now2 : DateNow),
      ∃ newStore : List Ranking,
        calculateRankings store [] type (some p) now2 = .ok ([], newStore) ∧
        calculateRankings newStore [] type (some p) now2 = .ok ([], newStore)) := by
  refine ⟨rfl, fun store type p now2 => ?_⟩
  have h2 : ∀ l : List Ranking,
      calculateRankings l [] type (some p) now2 =
        .ok ([], l.filter (fun r =>
          !(decide (r.ranking_type = type) && decide (r.period = p)))) :=
    fun l => rfl
  refine ⟨store.filter (fun r =>
    !(decide (r.ranking_type = type) && decide (r.period = p))), h2 store, ?_⟩
  rw [h2, List.filter_filter]
  congr 2
  apply List.filter_congr
  intro a _
  simp

/-- **C9.** Badges are never assigned: the badge loop
(`src/models/Ranking.js` lines 447-462) is unreachable, because a run
over these ten active users throws in the first user's stats query; no
row of any rank is ever created, let alone decorated. -/
theorem C9_stats_query_throws :
    calculateRankings [] usersC9 "total" (some "total") dummyNow =
      .error "Unknown column \x27current_streak\x27 in \x27field list\x27" ∧
    (usersC9.filter (fun u => decide (u.status = UserStatus.active))).length = 10 :=
  ⟨rfl, by decide⟩

/-- Stored total-ranking snapshot row of user 1, rank 1. -/
def rowC10a : Ranking :=
  { user_id := 1, rank := 1, previous_rank := none, score := 30
    period_score := 30, total_recommends := 0, success_recommends := 0
    win_rate := 0, avg_return := 0, max_return := 0, current_streak := 0
    max_streak := 0, ranking_type := "total", period := "total"
    period_start := none, period_end := none, is_active := true
    badge := none }

/-- Stored total-ranking snapshot row of user 2, rank 2 — the user turns
banned after the snapshot was computed. -/
def rowC10b : Ranking :=
  { user_id := 2, rank := 2, previous_rank := none, score := 20
    period_score := 20, total_recommends := 0, success_recommends := 0
    win_rate := 0, avg_return := 0, max_return := 0, current_streak := 0
    max_streak := 0, ranking_type := "total", period := "total"
    period_start := none, period_end := none, is_active := true
    badge := none }

/-- Stored total-ranking snapshot row of user 3, rank 3. -/
def rowC10c : Ranking :=
  { user_id := 3, rank := 3, previous_rank := none, score := 10
    period_score := 10, total_recommends := 0, success_recommends := 0
    win_rate := 0, avg_return := 0, max_return := 0, current_streak := 0
    max_streak := 0, ranking_type := "total", period := "total"
    period_start := none, period_end := none, is_active := true
    badge := none }

/-- A dense stored snapshot: ranks 1, 2, 3. -/
def storeC10 : List Ranking := [rowC10a, rowC10b, rowC10c]

/-- Users 1 and 3 active, user 2 banned after the snapshot was stored. -/
def usersC10 : List User :=
  [{ id := 1, level := 1, total_score := 30, current_score := 0
     total_recommends := 0, success_recommends := 0, failed_recommends := 0
     current_streak := 0, max_streak := 0, status := .active },
   { id := 2, level := 1, total_score := 20, current_score := 0
     total_recommends := 0, success_recommends := 0, failed_recommends := 0
     current_streak := 0, max_streak := 0, status := .banned },
   { id := 3, level := 1, total_score := 10, current_score := 0
     total_recommends := 0, success_recommends := 0, failed_recommends := 0
     current_streak := 0, max_streak := 0, status := .active }]

/-- **C10, confirmed.** `getRankingList` returns only snapshot rows of the
requested type and period whose `is_active` flag is set and whose user
currently has status `active` (the required join), ordered by rank
ascending; `getUserRanking` only requires the row itself to be `is_active`
(no user-status filter). Rows of users who became inactive or banned after
the snapshot are silently dropped, so a returned page can skip ranks even
though the stored snapshot is dense (the concrete store with ranks 1, 2, 3
and user 2 banned yields the page [1, 3]). -/
theorem C10_read_paths (store : List Ranking) (users : List User)
    (type period : String) (lim offset uid : Nat) (now : DateNow) :
    (∀ row ∈ (getRankingList store users type (some period) lim offset now).1,
      row.ranking_type = type ∧ row.period = period ∧ row.is_active = true ∧
        ∃ u, users.find? (fun u2 => decide (u2.id = row.user_id)) = some u ∧
          u.status = UserStatus.active) ∧
    (getRankingList store users type (some period) lim offset now).1.Pairwise
      (fun a b => a.rank ≤ b.rank) ∧
    (∀ row, getUserRanking store uid type (some period) now = some row →
      row.user_id = uid ∧ row.ranking_type = type ∧ row.period = period ∧
        row.is_active = true) ∧
    ((getRankingList storeC10 usersC10 "total" (some "total") 50 0
        dummyNow).1.map Ranking.rank = [1, 3] ∧
      storeC10.map Ranking.rank = [1, 2, 3]) := by
  refine ⟨?_, ?_, ?_, ?_, by decide⟩
  · intro row h
    unfold getRankingList at h
    dsimp only at h
    have h2 := List.mem_of_mem_drop (List.mem_of_mem_take h)
    rw [List.mem_mergeSort, List.mem_filter] at h2
    obtain ⟨-, hp⟩ := h2
    simp only [Bool.and_eq_true, decide_eq_true_eq] at hp
    obtain ⟨⟨⟨hrt, hper⟩, hact⟩, hmatch⟩ := hp
    refine ⟨hrt, hper, hact, ?_⟩
    cases hfind : users.find? (fun u2 => decide (u2.id = row.user_id)) with
    | none => rw [hfind] at hmatch; exact absurd hmatch (by simp)
    | some u =>
      rw [hfind] at hmatch
      exact ⟨u, rfl, by simpa using hmatch⟩
  · unfold getRankingList
    dsimp only
    have hs := @List.sorted_mergeSort Ranking
      (fun a b => decide (a.rank ≤ b.rank))
      (fun a b c hab hbc => by
        simp only [decide_eq_true_eq] at hab hbc ⊢; omega)
      (fun a b => by
        simp only [Bool.or_eq_true, decide_eq_true_eq]
        omega)
      (store.filter (fun row =>
        decide (row.ranking_type = type) && decide (row.period = period) &&
          row.is_active &&
          (match users.find? (fun u => decide (u.id = row.user_id)) with
            | some u => decide (u.status = UserStatus.active)
            | none => false)))
    have hsub := List.Pairwise.sublist
      ((List.take_sublist lim _).trans (List.drop_sublist offset _)) hs
    exact hsub.imp (fun h => by simpa using h)
  · intro row h
    unfold getUserRanking at h
    dsimp only at h
    rw [List.head?_eq_some_iff] at h
    obtain ⟨ys, hys⟩ := h
    have hmem : row ∈ store.filter (fun r =>
        decide (r.user_id = uid) && decide (r.ranking_type = type) &&
          decide (r.period = period) && r.is_active) := by
      rw [hys]; exact List.mem_cons_self _ _
    rw [List.mem_filter] at hmem
    have hp := hmem.2
    simp only [Bool.and_eq_true, decide_eq_true_eq] at hp
    exact ⟨hp.1.1.1, hp.1.1.2, hp.1.2, hp.2⟩
  · have hp : List.Pairwise (fun a b : Ranking =>
        decide (a.rank ≤ b.rank) = true)
        (storeC10.filter (fun row =>
          decide (row.ranking_type = "total") && decide (row.period = "total") &&
            row.is_active &&
            (match usersC10.find? (fun u => decide (u.id = row.user_id)) with
              | some u => decide (u.status = UserStatus.active)
              | none => false))) := by decide
    unfold getRankingList
    dsimp only
    rw [List.mergeSort_of_sorted hp]
    decide

end StockContest
